import Mathlib

/-!
Verification development for the multi-agent traffic-routing DQN program
(src/DNQObstacle.py). The grid-world environment, the replay buffer, the
observation encoder and the trainer's per-agent done-flag update are embedded
shallowly; machine floats are modelled by exact rationals, Python dicts keyed
by agent ids by total functions on naturals restricted to indices below the
agent count.
-/

/-- Manhattan distance abs(ox - gx) + abs(oy - gy) between two grid cells, as
computed in the reward-shaping part of TrafficRoutingEnv.step
(src/DNQObstacle.py lines 186-191). -/
def manhattan (p q : ℕ × ℕ) : ℕ := Nat.dist p.1 q.1 + Nat.dist p.2 q.2

/-- State of a TrafficRoutingEnv object (src/DNQObstacle.py lines 22-69):
grid dimensions, agent count, the per-agent initial positions and destinations
drawn once at construction, the obstacle list, and the mutable per-agent
current positions, arrival latches and step counter. -/
structure TrafficRoutingEnv where
  grid_size : ℕ × ℕ
  num_agents : ℕ
  initial_positions : ℕ → ℕ × ℕ
  destinations : ℕ → ℕ × ℕ
  obstacles : List (ℕ × ℕ)
  agent_positions : ℕ → ℕ × ℕ
  arrived : ℕ → Bool
  steps : ℕ

namespace TrafficRoutingEnv

/-- The guarded coordinate update of step (src/DNQObstacle.py lines 109-118):
action 0 moves up, 1 down, 2 left, 3 right, each only when the move stays on
the grid; action 4 and blocked boundary moves leave the position unchanged. -/
def move (s : TrafficRoutingEnv) (p : ℕ × ℕ) (a : ℕ) : ℕ × ℕ :=
  if a = 0 ∧ 0 < p.1 then (p.1 - 1, p.2)
  else if a = 1 ∧ p.1 + 1 < s.grid_size.1 then (p.1 + 1, p.2)
  else if a = 2 ∧ 0 < p.2 then (p.1, p.2 - 1)
  else if a = 3 ∧ p.2 + 1 < s.grid_size.2 then (p.1, p.2 + 1)
  else p

/-- The desired new position of agent i in step (src/DNQObstacle.py lines
103-124): an agent whose arrival latch is set keeps its position; otherwise the
move is applied and, if the target cell is an obstacle, reverted to the old
position. -/
def desiredPos (s : TrafficRoutingEnv) (acts : ℕ → ℕ) (i : ℕ) : ℕ × ℕ :=
  if s.arrived i then s.agent_positions i
  else if s.move (s.agent_positions i) (acts i) ∈ s.obstacles then s.agent_positions i
  else s.move (s.agent_positions i) (acts i)

/-- The swap-collision set of step (src/DNQObstacle.py lines 126-133): agents i
for which some other agent j desires i's current cell while i desires j's. -/
def swap_blocked (s : TrafficRoutingEnv) (acts : ℕ → ℕ) : Finset ℕ :=
  (Finset.range s.num_agents).filter fun i =>
    ∃ j ∈ Finset.range s.num_agents, j ≠ i ∧
      s.desiredPos acts i = s.agent_positions j ∧
      s.desiredPos acts j = s.agent_positions i

/-- The same-cell-collision set of step (src/DNQObstacle.py lines 135-147):
among agents not already swap-blocked, every desired cell claimed by more than
one agent blocks all its claimants. -/
def collision_blocked (s : TrafficRoutingEnv) (acts : ℕ → ℕ) : Finset ℕ :=
  (Finset.range s.num_agents).filter fun i =>
    i ∉ s.swap_blocked acts ∧
    ∃ j ∈ Finset.range s.num_agents, j ≠ i ∧ j ∉ s.swap_blocked acts ∧
      s.desiredPos acts j = s.desiredPos acts i

/-- The union of all blocked agents (src/DNQObstacle.py line 153). -/
def blockedSet (s : TrafficRoutingEnv) (acts : ℕ → ℕ) : Finset ℕ :=
  s.swap_blocked acts ∪ s.collision_blocked acts

/-- The final position assignment of step (src/DNQObstacle.py lines 156-161):
blocked agents keep their old position, all others take their desired cell. -/
def finalPos (s : TrafficRoutingEnv) (acts : ℕ → ℕ) (i : ℕ) : ℕ × ℕ :=
  if i ∈ s.blockedSet acts then s.agent_positions i else s.desiredPos acts i

/-- The raw reward of step (src/DNQObstacle.py lines 167-180): +10 on a fresh
arrival, 0 when already latched at the destination, -1 otherwise. -/
def rawReward (s : TrafficRoutingEnv) (acts : ℕ → ℕ) (i : ℕ) : ℤ :=
  if s.finalPos acts i = s.destinations i then (if s.arrived i then 0 else 10) else -1

/-- The potential-shaped reward of step (src/DNQObstacle.py lines 182-198) over
exact rationals: raw reward plus gamma times the new potential minus the old
potential, gamma = 0.99, potential = minus the Manhattan distance to the
destination. -/
def shapedReward (s : TrafficRoutingEnv) (acts : ℕ → ℕ) (i : ℕ) : ℚ :=
  (s.rawReward acts i : ℚ) +
    (99 / 100 * (-(manhattan (s.finalPos acts i) (s.destinations i) : ℚ)) -
      (-(manhattan (s.agent_positions i) (s.destinations i) : ℚ)))

/-- Everything one call of TrafficRoutingEnv.step produces: the successor
object state plus the returned shaped rewards, the per-agent raw rewards and
dones computed on the way, the episode-done flag and the collision count. -/
structure StepResult where
  state : TrafficRoutingEnv
  raw : ℕ → ℤ
  shaped : ℕ → ℚ
  dones : ℕ → Bool
  done : Bool
  num_collisions : ℕ

/-- The step method (src/DNQObstacle.py lines 98-202): desired moves with
arrival freezing and obstacle reverts, swap and same-cell collision blocking,
position update, step-counter increment, raw rewards with the arrival latch,
potential-based reward shaping, and the episode-done flag (all agents done or
50 steps reached). -/
def step (s : TrafficRoutingEnv) (acts : ℕ → ℕ) : StepResult :=
  { state := { s with
      agent_positions := fun i => s.finalPos acts i
      arrived := fun i => s.arrived i || decide (s.finalPos acts i = s.destinations i)
      steps := s.steps + 1 }
    raw := fun i => s.rawReward acts i
    shaped := fun i => s.shapedReward acts i
    dones := fun i => decide (s.finalPos acts i = s.destinations i)
    done := decide (∀ i ∈ Finset.range s.num_agents, s.finalPos acts i = s.destinations i)
            || decide (50 ≤ s.steps + 1)
    num_collisions := (s.swap_blocked acts).card + (s.collision_blocked acts).card }

/-- The reset method (src/DNQObstacle.py lines 71-84): positions are restored
to the stored initial positions, arrival latches cleared, step counter zeroed;
destinations and obstacles are untouched. -/
def reset (s : TrafficRoutingEnv) : TrafficRoutingEnv :=
  { s with agent_positions := s.initial_positions, arrived := fun _ => false, steps := 0 }

/-- A cell lies inside the grid. -/
def inBounds (s : TrafficRoutingEnv) (p : ℕ × ℕ) : Prop :=
  p.1 < s.grid_size.1 ∧ p.2 < s.grid_size.2

instance instDecidableInBounds (s : TrafficRoutingEnv) (p : ℕ × ℕ) :
    Decidable (s.inBounds p) := by
  unfold inBounds
  infer_instance

/-- What a successful construction guarantees (src/DNQObstacle.py lines 23-69):
positive grid dimensions and in-grid initial positions and destinations (both
coordinates are drawn by np.random.randint over the grid dimension), current
positions equal to the stored initial positions, cleared arrival latches, a
zero step counter, and no obstacle on any initial position or destination (the
two ValueError checks). -/
def WellConstructed (s : TrafficRoutingEnv) : Prop :=
  0 < s.grid_size.1 ∧ 0 < s.grid_size.2 ∧
  (∀ i < s.num_agents, s.inBounds (s.initial_positions i) ∧ s.inBounds (s.destinations i)) ∧
  (∀ p ∈ s.obstacles, ∀ i < s.num_agents,
      p ≠ s.initial_positions i ∧ p ≠ s.destinations i) ∧
  (∀ i < s.num_agents, s.agent_positions i = s.initial_positions i) ∧
  (∀ i < s.num_agents, s.arrived i = false) ∧
  s.steps = 0

instance instDecidableWellConstructed (s : TrafficRoutingEnv) :
    Decidable s.WellConstructed := by
  unfold WellConstructed
  infer_instance

/-- States reachable from a given state by any sequence of reset and step
calls. -/
inductive Reaches : TrafficRoutingEnv → TrafficRoutingEnv → Prop
  | refl (s : TrafficRoutingEnv) : Reaches s s
  | reset {s t : TrafficRoutingEnv} (h : Reaches s t) : Reaches s t.reset
  | step {s t : TrafficRoutingEnv} (h : Reaches s t) (acts : ℕ → ℕ) :
      Reaches s (t.step acts).state

/-- Safety invariant for claim C4: initial and current positions of all agents
lie on the grid and off the obstacles. -/
def SafeInv (s : TrafficRoutingEnv) : Prop :=
  0 < s.grid_size.1 ∧ 0 < s.grid_size.2 ∧
  (∀ i < s.num_agents, s.inBounds (s.initial_positions i) ∧
      s.initial_positions i ∉ s.obstacles) ∧
  (∀ i < s.num_agents, s.inBounds (s.agent_positions i) ∧
      s.agent_positions i ∉ s.obstacles)

/-- Invariant for claim C7: a latched agent stands on its destination. -/
def ArrInv (s : TrafficRoutingEnv) : Prop :=
  ∀ i < s.num_agents, s.arrived i = true → s.agent_positions i = s.destinations i

end TrafficRoutingEnv

/-- The experience replay buffer (src/DNQObstacle.py lines 261-275): a bounded
FIFO. The deque with maxlen capacity is modelled by a list that drops its
oldest element when an append makes it exceed the capacity. The stored
transition tuples are abstracted by an arbitrary element type. -/
structure ReplayBuffer (α : Type) where
  capacity : ℕ
  buffer : List α

/-- A freshly constructed replay buffer: an empty deque with maxlen c. -/
def ReplayBuffer.empty (α : Type) (c : ℕ) : ReplayBuffer α :=
  { capacity := c, buffer := [] }

/-- push (src/DNQObstacle.py lines 266-267): append on the right; the deque
evicts on the left when the capacity is exceeded. -/
def ReplayBuffer.push {α : Type} (b : ReplayBuffer α) (x : α) : ReplayBuffer α :=
  { capacity := b.capacity
    buffer := if b.capacity < (b.buffer ++ [x]).length
              then (b.buffer ++ [x]).tail else b.buffer ++ [x] }

/-- Pushing a whole list of transitions in order. -/
def ReplayBuffer.pushAll {α : Type} (b : ReplayBuffer α) (xs : List α) : ReplayBuffer α :=
  xs.foldl ReplayBuffer.push b

/-- The occupancy value of one cell in obs_to_state (src/DNQObstacle.py lines
286-296): 1 when the cell is an obstacle or some agent's current position,
else 0. -/
def occupancyAt (obstacles : List (ℕ × ℕ)) (n : ℕ) (position : ℕ → ℕ × ℕ)
    (c : ℕ × ℕ) : ℚ :=
  if c ∈ obstacles ∨ ∃ j ∈ Finset.range n, position j = c then 1 else 0

/-- One entry of the 3x3 neighbourhood window of obs_to_state
(src/DNQObstacle.py lines 306-312): the occupancy of the offset cell when it
lies on the grid, else the initial 0. -/
def localEntry (grid_size : ℕ × ℕ) (obstacles : List (ℕ × ℕ)) (n : ℕ)
    (position : ℕ → ℕ × ℕ) (x y : ℕ) (ox oy : ℤ) : ℚ :=
  if 0 ≤ (x : ℤ) + ox ∧ (x : ℤ) + ox < (grid_size.1 : ℤ) ∧
     0 ≤ (y : ℤ) + oy ∧ (y : ℤ) + oy < (grid_size.2 : ℤ) then
    occupancyAt obstacles n position (((x : ℤ) + ox).toNat, ((y : ℤ) + oy).toNat)
  else 0

/-- obs_to_state for one agent (src/DNQObstacle.py lines 278-323): the
4 normalized coordinates, the 3x3 occupancy window flattened row-major with the
offsets -1, 0, 1 in each axis, and the normalized Manhattan distance. The
observation map is given by the agent count n, the per-agent positions and
destinations, and the shared obstacle list. -/
def obs_to_state (grid_size : ℕ × ℕ) (obstacles : List (ℕ × ℕ)) (n : ℕ)
    (position destination : ℕ → ℕ × ℕ) (i : ℕ) : List ℚ :=
  [((position i).1 : ℚ) / ((grid_size.1 : ℚ) - 1),
   ((position i).2 : ℚ) / ((grid_size.2 : ℚ) - 1),
   ((destination i).1 : ℚ) / ((grid_size.1 : ℚ) - 1),
   ((destination i).2 : ℚ) / ((grid_size.2 : ℚ) - 1)]
  ++ [localEntry grid_size obstacles n position (position i).1 (position i).2 (-1) (-1),
      localEntry grid_size obstacles n position (position i).1 (position i).2 (-1) 0,
      localEntry grid_size obstacles n position (position i).1 (position i).2 (-1) 1,
      localEntry grid_size obstacles n position (position i).1 (position i).2 0 (-1),
      localEntry grid_size obstacles n position (position i).1 (position i).2 0 0,
      localEntry grid_size obstacles n position (position i).1 (position i).2 0 1,
      localEntry grid_size obstacles n position (position i).1 (position i).2 1 (-1),
      localEntry grid_size obstacles n position (position i).1 (position i).2 1 0,
      localEntry grid_size obstacles n position (position i).1 (position i).2 1 1]
  ++ [(manhattan (position i) (destination i) : ℚ) /
        (((grid_size.1 : ℚ) - 1) + ((grid_size.2 : ℚ) - 1))]

/-- The per-agent done-flag update of MADQNTrainer.train (src/DNQObstacle.py
lines 520-522): the flag is set when the reward stored for the step equals 10;
the compared reward is the shaped reward returned by step. -/
def trainDoneUpdate (d : Bool) (r : ℚ) : Bool :=
  if r = 10 then true else d

/-- Concrete environment for claim C1: one agent on a 1 x 2 grid, one cell left
of its destination, latch clear. -/
def envC1 : TrafficRoutingEnv :=
  { grid_size := (1, 2), num_agents := 1, initial_positions := fun _ => (0, 1),
    destinations := fun _ => (0, 0), obstacles := [],
    agent_positions := fun _ => (0, 1), arrived := fun _ => false, steps := 0 }

/-- Action map for claim C1: the agent moves left onto its destination. -/
def actsC1 : ℕ → ℕ := fun _ => 2

/-- Concrete environment for claim C2: one agent on an 8 x 8 grid at Manhattan
distance 5 from its destination. -/
def envC2 : TrafficRoutingEnv :=
  { grid_size := (8, 8), num_agents := 1, initial_positions := fun _ => (5, 0),
    destinations := fun _ => (0, 0), obstacles := [],
    agent_positions := fun _ => (5, 0), arrived := fun _ => false, steps := 0 }

/-- Action map for claim C2: the agent moves up, to distance 4. -/
def actsC2 : ℕ → ℕ := fun _ => 0

/-- Concrete environment for claim C3: three agents on distinct cells of a
2 x 2 grid. -/
def envC3 : TrafficRoutingEnv :=
  { grid_size := (2, 2), num_agents := 3,
    initial_positions := fun i => if i = 0 then (0, 0) else if i = 1 then (0, 1) else (1, 0),
    destinations := fun _ => (1, 1), obstacles := [],
    agent_positions := fun i => if i = 0 then (0, 0) else if i = 1 then (0, 1) else (1, 0),
    arrived := fun _ => false, steps := 0 }

/-- Action map for claim C3: agents 0 and 1 try to trade places (both get
swap-blocked) while agent 2 moves onto agent 0's held cell. -/
def actsC3 : ℕ → ℕ := fun i => if i = 0 then 3 else if i = 1 then 2 else 0

/-- Concrete environment for claim C4: one agent on a 2 x 2 grid with one
obstacle next to it. -/
def envC4 : TrafficRoutingEnv :=
  { grid_size := (2, 2), num_agents := 1, initial_positions := fun _ => (0, 0),
    destinations := fun _ => (1, 1), obstacles := [(0, 1)],
    agent_positions := fun _ => (0, 0), arrived := fun _ => false, steps := 0 }

/-- Action map for claim C4: the agent tries to move right into the obstacle. -/
def actsC4 : ℕ → ℕ := fun _ => 3

/-- Concrete environment for claims C6 and C7: one agent born on its
destination. For C6 the latch is set by one step; the resulting state has the
agent latched at its destination. -/
def envC7 : TrafficRoutingEnv :=
  { grid_size := (1, 1), num_agents := 1, initial_positions := fun _ => (0, 0),
    destinations := fun _ => (0, 0), obstacles := [],
    agent_positions := fun _ => (0, 0), arrived := fun _ => false, steps := 0 }

/-- Concrete environment for claim C6: the C7 agent with its latch already
set, standing on its destination. -/
def envC6 : TrafficRoutingEnv :=
  { grid_size := (1, 1), num_agents := 1, initial_positions := fun _ => (0, 0),
    destinations := fun _ => (0, 0), obstacles := [],
    agent_positions := fun _ => (0, 0), arrived := fun _ => true, steps := 0 }

/-- Action map for claims C6 and C7: stay. -/
def actsStay : ℕ → ℕ := fun _ => 4

namespace TrafficRoutingEnv

/-- The guarded coordinate update never leaves the grid. -/
lemma move_safe (s : TrafficRoutingEnv) (p : ℕ × ℕ) (a : ℕ)
    (h : s.inBounds p) : s.inBounds (s.move p a) := by
  unfold move inBounds at *
  split_ifs with h1 h2 h3 h4
  · exact ⟨lt_of_le_of_lt (Nat.sub_le _ _) h.1, h.2⟩
  · exact ⟨h2.2, h.2⟩
  · exact ⟨h.1, lt_of_le_of_lt (Nat.sub_le _ _) h.2⟩
  · exact ⟨h.1, h4.2⟩
  · exact h

/-- A desired position computed from a safe current position is safe: the
obstacle revert keeps agents off obstacles and the clamped move keeps them on
the grid. -/
lemma desiredPos_safe (s : TrafficRoutingEnv) (acts : ℕ → ℕ) (i : ℕ)
    (h1 : s.inBounds (s.agent_positions i)) (h2 : s.agent_positions i ∉ s.obstacles) :
    s.inBounds (s.desiredPos acts i) ∧ s.desiredPos acts i ∉ s.obstacles := by
  unfold desiredPos
  split_ifs with ha hb
  · exact ⟨h1, h2⟩
  · exact ⟨h1, h2⟩
  · exact ⟨s.move_safe _ _ h1, hb⟩

/-- A final position computed from a safe current position is safe. -/
lemma finalPos_safe (s : TrafficRoutingEnv) (acts : ℕ → ℕ) (i : ℕ)
    (h1 : s.inBounds (s.agent_positions i)) (h2 : s.agent_positions i ∉ s.obstacles) :
    s.inBounds (s.finalPos acts i) ∧ s.finalPos acts i ∉ s.obstacles := by
  unfold finalPos
  split_ifs with hb
  · exact ⟨h1, h2⟩
  · exact s.desiredPos_safe acts i h1 h2

/-- A well-constructed environment satisfies the safety invariant. -/
lemma wellConstructed_safeInv (s : TrafficRoutingEnv) (h : s.WellConstructed) :
    s.SafeInv := by
  obtain ⟨hr, hc, hib, hdisj, hpos, _, _⟩ := h
  have hinit : ∀ i < s.num_agents,
      s.inBounds (s.initial_positions i) ∧ s.initial_positions i ∉ s.obstacles := by
    intro i hi
    refine ⟨(hib i hi).1, fun hmem => ?_⟩
    exact (hdisj _ hmem i hi).1 rfl
  refine ⟨hr, hc, hinit, ?_⟩
  intro i hi
  rw [hpos i hi]
  exact hinit i hi

/-- step preserves the safety invariant. -/
lemma step_safeInv (s : TrafficRoutingEnv) (acts : ℕ → ℕ) (h : s.SafeInv) :
    ((s.step acts).state).SafeInv := by
  obtain ⟨hr, hc, hinit, hpos⟩ := h
  refine ⟨hr, hc, hinit, ?_⟩
  intro i hi
  exact s.finalPos_safe acts i (hpos i hi).1 (hpos i hi).2

/-- reset preserves the safety invariant. -/
lemma reset_safeInv (s : TrafficRoutingEnv) (h : s.SafeInv) : s.reset.SafeInv := by
  obtain ⟨hr, hc, hinit, _⟩ := h
  exact ⟨hr, hc, hinit, hinit⟩

/-- Every state reachable from a well-constructed state satisfies the safety
invariant. -/
lemma reaches_safeInv {s t : TrafficRoutingEnv} (h0 : s.WellConstructed)
    (h : Reaches s t) : t.SafeInv := by
  induction h with
  | refl => exact wellConstructed_safeInv _ h0
  | reset _ ih => exact reset_safeInv _ ih
  | step _ acts ih => exact step_safeInv _ acts ih

/-- An agent whose arrival latch is set keeps its position through step. -/
lemma finalPos_of_arrived (s : TrafficRoutingEnv) (acts : ℕ → ℕ) (i : ℕ)
    (ha : s.arrived i = true) : s.finalPos acts i = s.agent_positions i := by
  simp [finalPos, desiredPos, ha]

/-- A well-constructed environment satisfies the latched-at-destination
invariant (all latches are cleared). -/
lemma wellConstructed_arrInv (s : TrafficRoutingEnv) (h : s.WellConstructed) :
    s.ArrInv := by
  intro i hi hai
  rw [h.2.2.2.2.2.1 i hi] at hai
  simp at hai

/-- step preserves the latched-at-destination invariant. -/
lemma step_arrInv (s : TrafficRoutingEnv) (acts : ℕ → ℕ) (h : s.ArrInv) :
    ((s.step acts).state).ArrInv := by
  intro i hi hai
  have hai' : s.arrived i = true ∨ s.finalPos acts i = s.destinations i := by
    have h' := hai
    simp only [step, Bool.or_eq_true, decide_eq_true_eq] at h'
    exact h'
  show s.finalPos acts i = s.destinations i
  rcases hai' with h1 | h1
  · rw [finalPos_of_arrived s acts i h1]
    exact h i hi h1
  · exact h1

/-- reset preserves the latched-at-destination invariant. -/
lemma reset_arrInv (s : TrafficRoutingEnv) : s.reset.ArrInv := by
  intro i hi hai
  simp [reset] at hai

/-- Every state reachable from a well-constructed state satisfies the
latched-at-destination invariant. -/
lemma reaches_arrInv {s t : TrafficRoutingEnv} (h0 : s.WellConstructed)
    (h : Reaches s t) : t.ArrInv := by
  induction h with
  | refl => exact wellConstructed_arrInv _ h0
  | reset _ _ => exact reset_arrInv _
  | step _ acts ih => exact step_arrInv _ acts ih

end TrafficRoutingEnv

/-- push never grows the buffer beyond the capacity. -/
lemma ReplayBuffer.push_length_le {α : Type} (b : ReplayBuffer α) (x : α)
    (h : b.buffer.length ≤ b.capacity) : (b.push x).buffer.length ≤ b.capacity := by
  unfold ReplayBuffer.push
  split_ifs with hc
  · simp only [List.length_tail, List.length_append, List.length_cons, List.length_nil]
    omega
  · simp only [List.length_append, List.length_cons, List.length_nil] at hc
    simp only [List.length_append, List.length_cons, List.length_nil]
    omega

/-- pushAll never grows the buffer beyond the capacity. -/
lemma ReplayBuffer.pushAll_length_le {α : Type} (xs : List α) (b : ReplayBuffer α)
    (h : b.buffer.length ≤ b.capacity) :
    (b.pushAll xs).buffer.length ≤ b.capacity := by
  induction xs generalizing b with
  | nil => exact h
  | cons x rest ih =>
    have hcap : (b.push x).capacity = b.capacity := rfl
    have := ih (b.push x) (by rw [hcap]; exact b.push_length_le x h)
    rw [hcap] at this
    exact this

/-- As long as the capacity is not exceeded, pushing only appends. -/
lemma ReplayBuffer.pushAll_no_evict {α : Type} (xs : List α) (b : ReplayBuffer α)
    (h : b.buffer.length + xs.length ≤ b.capacity) :
    (b.pushAll xs).buffer = b.buffer ++ xs := by
  induction xs generalizing b with
  | nil => simp [ReplayBuffer.pushAll]
  | cons x rest ih =>
    have hlen : ¬ b.capacity < (b.buffer ++ [x]).length := by
      simp only [List.length_append, List.length_cons, List.length_nil]
      simp only [List.length_cons] at h
      omega
    have hpush : (b.push x).buffer = b.buffer ++ [x] := by
      unfold ReplayBuffer.push
      rw [if_neg hlen]
    have hcap : (b.push x).capacity = b.capacity := rfl
    have hih := ih (b.push x) (by
      rw [hcap, hpush]
      simp only [List.length_append, List.length_cons, List.length_nil]
      simp only [List.length_cons] at h
      omega)
    have hstep : b.pushAll (x :: rest) = (b.push x).pushAll rest := rfl
    rw [hstep, hih, hpush, List.append_assoc]
    rfl

/-- A coordinate below the grid dimension, normalized by dimension minus one,
lies in the unit interval. -/
lemma coord_div_mem_unit {a H : ℕ} (hH : 2 ≤ H) (ha : a < H) :
    0 ≤ (a : ℚ) / ((H : ℚ) - 1) ∧ (a : ℚ) / ((H : ℚ) - 1) ≤ 1 := by
  have hH2 : (2 : ℚ) ≤ (H : ℚ) := by exact_mod_cast hH
  have hpos : (0 : ℚ) < (H : ℚ) - 1 := by linarith
  constructor
  · exact div_nonneg (by positivity) hpos.le
  · rw [div_le_one hpos]
    have ha' : (a : ℚ) + 1 ≤ (H : ℚ) := by exact_mod_cast Nat.succ_le_of_lt ha
    linarith

/-- The occupancy indicator takes values in the unit interval. -/
lemma occupancyAt_mem_unit (obstacles : List (ℕ × ℕ)) (n : ℕ)
    (position : ℕ → ℕ × ℕ) (c : ℕ × ℕ) :
    0 ≤ occupancyAt obstacles n position c ∧ occupancyAt obstacles n position c ≤ 1 := by
  unfold occupancyAt
  split_ifs <;> norm_num

/-- Every 3 x 3 window entry lies in the unit interval. -/
lemma localEntry_mem_unit (grid_size : ℕ × ℕ) (obstacles : List (ℕ × ℕ)) (n : ℕ)
    (position : ℕ → ℕ × ℕ) (x y : ℕ) (ox oy : ℤ) :
    0 ≤ localEntry grid_size obstacles n position x y ox oy ∧
      localEntry grid_size obstacles n position x y ox oy ≤ 1 := by
  unfold localEntry
  split_ifs
  · exact occupancyAt_mem_unit _ _ _ _
  · norm_num

/-- Two cells of the grid are at Manhattan distance at most
(rows - 1) + (cols - 1). -/
lemma manhattan_le {p q : ℕ × ℕ} {H W : ℕ}
    (h1 : p.1 < H) (h2 : p.2 < W) (h3 : q.1 < H) (h4 : q.2 < W) :
    manhattan p q ≤ (H - 1) + (W - 1) := by
  unfold manhattan Nat.dist
  omega

/-- The normalized Manhattan distance of two grid cells lies in the unit
interval. -/
lemma dist_norm_mem_unit {p q : ℕ × ℕ} {H W : ℕ} (hH : 2 ≤ H) (hW : 2 ≤ W)
    (h1 : p.1 < H) (h2 : p.2 < W) (h3 : q.1 < H) (h4 : q.2 < W) :
    0 ≤ (manhattan p q : ℚ) / (((H : ℚ) - 1) + ((W : ℚ) - 1)) ∧
      (manhattan p q : ℚ) / (((H : ℚ) - 1) + ((W : ℚ) - 1)) ≤ 1 := by
  have hH2 : (2 : ℚ) ≤ (H : ℚ) := by exact_mod_cast hH
  have hW2 : (2 : ℚ) ≤ (W : ℚ) := by exact_mod_cast hW
  have hpos : (0 : ℚ) < ((H : ℚ) - 1) + ((W : ℚ) - 1) := by linarith
  constructor
  · exact div_nonneg (by positivity) hpos.le
  · rw [div_le_one hpos]
    have hle := manhattan_le h1 h2 h3 h4
    have hle' : (manhattan p q : ℚ) ≤ ((H - 1 : ℕ) : ℚ) + ((W - 1 : ℕ) : ℚ) := by
      exact_mod_cast hle
    have hcH : ((H - 1 : ℕ) : ℚ) = (H : ℚ) - 1 := by
      have : 1 ≤ H := le_trans (by norm_num) hH
      push_cast [this]
      ring
    have hcW : ((W - 1 : ℕ) : ℚ) = (W : ℚ) - 1 := by
      have : 1 ≤ W := le_trans (by norm_num) hW
      push_cast [this]
      ring
    rw [hcH, hcW] at hle'
    exact hle'

namespace TrafficRoutingEnv

/-- Claim C4: after a successful construction (obstacles disjoint from all
initial positions), along every sequence of reset and step calls with
well-formed action maps, every agent's position stays inside
[0, rows) x [0, cols) and never lies on an obstacle cell. -/
theorem positions_in_grid_and_off_obstacles (s t : TrafficRoutingEnv)
    (h0 : s.WellConstructed) (h : Reaches s t) :
    ∀ i < t.num_agents,
      t.inBounds (t.agent_positions i) ∧ t.agent_positions i ∉ t.obstacles :=
  (reaches_safeInv h0 h).2.2.2

/-- Witness for claim C4 at a concrete environment, one step after
construction, where the agent tried to walk into the obstacle. -/
theorem positions_in_grid_and_off_obstacles_witness :
    envC4.WellConstructed ∧
    (∀ i < ((envC4.step actsC4).state).num_agents,
      ((envC4.step actsC4).state).inBounds (((envC4.step actsC4).state).agent_positions i) ∧
      ((envC4.step actsC4).state).agent_positions i ∉ ((envC4.step actsC4).state).obstacles) :=
  ⟨by decide, positions_in_grid_and_off_obstacles envC4 _ (by decide)
    (Reaches.step (Reaches.refl envC4) actsC4)⟩

/-- Claim C7: within an episode the arrival latch never falls back from true,
and every step taken while the latch is true leaves the agent exactly on its
destination, whatever action is supplied. -/
theorem arrival_latch_monotone_frozen (s t : TrafficRoutingEnv)
    (h0 : s.WellConstructed) (h : Reaches s t) (acts : ℕ → ℕ) (i : ℕ)
    (hi : i < t.num_agents) (ha : t.arrived i = true) :
    (t.step acts).state.arrived i = true ∧
    (t.step acts).state.agent_positions i = t.destinations i := by
  constructor
  · show (t.arrived i || _) = true
    rw [ha, Bool.true_or]
  · show t.finalPos acts i = t.destinations i
    rw [finalPos_of_arrived t acts i ha]
    exact reaches_arrInv h0 h i hi ha

/-- Witness for claim C7: an agent born on its destination is latched after
one step, and one further step keeps the latch and the position. -/
theorem arrival_latch_monotone_frozen_witness :
    envC7.WellConstructed ∧
    ((envC7.step actsStay).state).arrived 0 = true ∧
    ((((envC7.step actsStay).state).step actsStay).state.arrived 0 = true ∧
     (((envC7.step actsStay).state).step actsStay).state.agent_positions 0 =
       ((envC7.step actsStay).state).destinations 0) :=
  ⟨by decide, by decide,
    arrival_latch_monotone_frozen envC7 _ (by decide)
      (Reaches.step (Reaches.refl envC7) actsStay) actsStay 0 (by decide) (by decide)⟩

/-- Claim C5: in every step the swap-block set and the same-cell-block set are
disjoint, every agent in either set keeps its prior position, and the returned
collision count is the sum of the two set sizes. -/
theorem step_collision_accounting (s : TrafficRoutingEnv) (acts : ℕ → ℕ) :
    Disjoint (s.swap_blocked acts) (s.collision_blocked acts) ∧
    (∀ i ∈ s.swap_blocked acts ∪ s.collision_blocked acts,
      (s.step acts).state.agent_positions i = s.agent_positions i) ∧
    (s.step acts).num_collisions =
      (s.swap_blocked acts).card + (s.collision_blocked acts).card := by
  refine ⟨Finset.disjoint_left.mpr ?_, ?_, rfl⟩
  · intro a ha hb
    exact ((Finset.mem_filter.mp hb).2).1 ha
  · intro i hi
    show s.finalPos acts i = s.agent_positions i
    unfold finalPos
    rw [if_pos (show i ∈ s.blockedSet acts from hi)]

/-- Witness for claim C5 at the concrete three-agent swap scenario: agent 0 is
blocked and keeps its cell, and the collision count is the sum of the two set
sizes. -/
theorem step_collision_accounting_witness :
    (0 ∈ envC3.swap_blocked actsC3 ∪ envC3.collision_blocked actsC3) ∧
    (envC3.step actsC3).state.agent_positions 0 = envC3.agent_positions 0 ∧
    (envC3.step actsC3).num_collisions =
      (envC3.swap_blocked actsC3).card + (envC3.collision_blocked actsC3).card :=
  ⟨by decide, (step_collision_accounting envC3 actsC3).2.1 0 (by decide),
    (step_collision_accounting envC3 actsC3).2.2⟩

/-- Claim C6: the raw reward of step is +10 exactly on a fresh arrival (latch
previously false, final position on the destination, and the latch is then
set), 0 when already latched at the destination, -1 off the destination; a
latched agent can never be paid +10 again, so +10 is paid at most once per
agent per episode. -/
theorem raw_reward_rules (s : TrafficRoutingEnv) (acts : ℕ → ℕ) (i : ℕ) :
    (s.step acts).raw i =
      (if (s.step acts).state.agent_positions i = s.destinations i then
        (if s.arrived i then 0 else 10) else -1) ∧
    ((s.step acts).raw i = 10 → (s.step acts).state.arrived i = true) ∧
    (s.arrived i = true → (s.step acts).raw i ≠ 10) ∧
    (s.arrived i = true → (s.step acts).state.arrived i = true) := by
  refine ⟨rfl, ?_, ?_, ?_⟩
  · intro h10
    show (s.arrived i || _) = true
    by_cases hd : s.finalPos acts i = s.destinations i
    · simp [hd]
    · exfalso
      have hval : s.rawReward acts i = -1 := by
        unfold rawReward
        rw [if_neg hd]
      have hr : (s.step acts).raw i = s.rawReward acts i := rfl
      rw [hr, hval] at h10
      norm_num at h10
  · intro ha
    show s.rawReward acts i ≠ 10
    simp only [rawReward, ha]
    split_ifs <;> norm_num
  · intro ha
    show (s.arrived i || _) = true
    rw [ha, Bool.true_or]

/-- Witness for claim C6: a latched agent standing on its destination is not
paid +10 again and stays latched. -/
theorem raw_reward_rules_witness :
    envC6.arrived 0 = true ∧
    (envC6.step actsStay).raw 0 ≠ 10 ∧
    (envC6.step actsStay).state.arrived 0 = true :=
  ⟨rfl, (raw_reward_rules envC6 actsStay 0).2.2.1 rfl,
    (raw_reward_rules envC6 actsStay 0).2.2.2 rfl⟩

/-- Claim C8: neither step nor reset changes the grid dimensions, the obstacle
list, the destinations or the stored initial positions; reset restores the
positions to the stored initial positions, clears every arrival latch and
zeroes the step counter. -/
theorem step_reset_frame (s : TrafficRoutingEnv) (acts : ℕ → ℕ) :
    (s.step acts).state.grid_size = s.grid_size ∧
    (s.step acts).state.obstacles = s.obstacles ∧
    (s.step acts).state.destinations = s.destinations ∧
    (s.step acts).state.initial_positions = s.initial_positions ∧
    s.reset.grid_size = s.grid_size ∧
    s.reset.obstacles = s.obstacles ∧
    s.reset.destinations = s.destinations ∧
    s.reset.initial_positions = s.initial_positions ∧
    s.reset.agent_positions = s.initial_positions ∧
    (∀ i, s.reset.arrived i = false) ∧
    s.reset.steps = 0 :=
  ⟨rfl, rfl, rfl, rfl, rfl, rfl, rfl, rfl, rfl, fun _ => rfl, rfl⟩

/-- Claim C2 (amended): a step with old Manhattan distance 5, new distance 4
and raw reward -1 returns shaped reward +0.04, that is 1/25 (the spec's -0.04
has the wrong sign). -/
theorem shaped_reward_arithmetic (s : TrafficRoutingEnv) (acts : ℕ → ℕ) (i : ℕ)
    (hold : manhattan (s.agent_positions i) (s.destinations i) = 5)
    (hnew : manhattan ((s.step acts).state.agent_positions i) (s.destinations i) = 4)
    (hraw : (s.step acts).raw i = -1) :
    (s.step acts).shaped i = 1 / 25 := by
  have hnew' : manhattan (s.finalPos acts i) (s.destinations i) = 4 := hnew
  have hraw' : s.rawReward acts i = -1 := hraw
  show s.shapedReward acts i = 1 / 25
  unfold shapedReward
  rw [hold, hnew', hraw']
  norm_num

/-- Witness for the amended claim C2 at a concrete environment moving from
distance 5 to distance 4. -/
theorem shaped_reward_arithmetic_witness :
    manhattan (envC2.agent_positions 0) (envC2.destinations 0) = 5 ∧
    manhattan ((envC2.step actsC2).state.agent_positions 0) (envC2.destinations 0) = 4 ∧
    (envC2.step actsC2).raw 0 = -1 ∧
    (envC2.step actsC2).shaped 0 = 1 / 25 :=
  ⟨by decide, by decide, by decide,
    shaped_reward_arithmetic envC2 actsC2 0 (by decide) (by decide) (by decide)⟩

/-- Counterexample for claim C2 as stated: at the claim's own numbers (old
distance 5, new distance 4, raw reward -1) the shaped reward returned by step
is +1/25 = +0.04, which is not -1/25 = -0.04; the difference of 2/25 is far
beyond floating tolerance. -/
theorem shaped_reward_sign_flipped :
    manhattan (envC2.agent_positions 0) (envC2.destinations 0) = 5 ∧
    manhattan ((envC2.step actsC2).state.agent_positions 0) (envC2.destinations 0) = 4 ∧
    (envC2.step actsC2).raw 0 = -1 ∧
    (envC2.step actsC2).shaped 0 = 1 / 25 ∧
    ¬((envC2.step actsC2).shaped 0 = -(1 / 25)) := by
  have h5 : manhattan (envC2.agent_positions 0) (envC2.destinations 0) = 5 := by decide
  have h4 : manhattan (envC2.finalPos actsC2 0) (envC2.destinations 0) = 4 := by decide
  have hraw : envC2.rawReward actsC2 0 = -1 := by decide
  have hshape : (envC2.step actsC2).shaped 0 = 1 / 25 := by
    show envC2.shapedReward actsC2 0 = 1 / 25
    unfold shapedReward
    rw [h5, h4, hraw]
    norm_num
  exact ⟨h5, h4, hraw, hshape, by rw [hshape]; norm_num⟩

/-- Claim C3 refutation: from a well-constructed state with three agents on
pairwise-distinct cells, one step ends with agents 0 and 2 on the same cell:
agents 0 and 1 are swap-blocked and held in place, while agent 2's desired
cell is agent 0's held cell, which the same-cell check does not protect. -/
theorem step_can_merge_two_agents :
    envC3.WellConstructed ∧
    (envC3.agent_positions 0 ≠ envC3.agent_positions 1 ∧
     envC3.agent_positions 0 ≠ envC3.agent_positions 2 ∧
     envC3.agent_positions 1 ≠ envC3.agent_positions 2) ∧
    (envC3.step actsC3).state.agent_positions 0 = (0, 0) ∧
    (envC3.step actsC3).state.agent_positions 2 = (0, 0) :=
  ⟨by decide, ⟨by decide, by decide, by decide⟩, by decide, by decide⟩

/-- Claim C1 refutation: a fresh arrival by an actual move pays raw reward +10
and sets the environment latch, but the shaped reward stored by the trainer is
11, so the trainer's done-flag update (which compares the shaped reward with
10) leaves the per-agent done flag false. -/
theorem trainer_misses_fresh_arrival_done_flag :
    envC1.arrived 0 = false ∧
    (envC1.step actsC1).raw 0 = 10 ∧
    (envC1.step actsC1).state.arrived 0 = true ∧
    (envC1.step actsC1).shaped 0 = 11 ∧
    trainDoneUpdate false ((envC1.step actsC1).shaped 0) = false := by
  have hshape : (envC1.step actsC1).shaped 0 = 11 := by
    have h1 : envC1.rawReward actsC1 0 = 10 := by decide
    have h2 : manhattan (envC1.finalPos actsC1 0) (envC1.destinations 0) = 0 := by decide
    have h3 : manhattan (envC1.agent_positions 0) (envC1.destinations 0) = 1 := by decide
    show envC1.shapedReward actsC1 0 = 11
    unfold shapedReward
    rw [h1, h2, h3]
    norm_num
  refine ⟨rfl, by decide, by decide, hshape, ?_⟩
  rw [hshape]
  unfold trainDoneUpdate
  norm_num

end TrafficRoutingEnv

/-- pushAll never changes the capacity. -/
lemma ReplayBuffer.pushAll_capacity {α : Type} (xs : List α) (b : ReplayBuffer α) :
    (b.pushAll xs).capacity = b.capacity := by
  induction xs generalizing b with
  | nil => rfl
  | cons x rest ih => exact (ih (b.push x)).trans rfl

/-- Unfolding equation for the buffer contents of push. -/
lemma ReplayBuffer.push_buffer {α : Type} (b : ReplayBuffer α) (x : α) :
    (b.push x).buffer =
      if b.capacity < (b.buffer ++ [x]).length
      then (b.buffer ++ [x]).tail else b.buffer ++ [x] := rfl

/-- Claim C9: pushing capacity + 1 transitions into a fresh replay buffer
leaves exactly capacity transitions, namely all but the first pushed one in
insertion order, and the buffer length never exceeds the capacity. -/
theorem replay_buffer_ring_eviction (α : Type) (c : ℕ) (xs : List α)
    (h : xs.length = c + 1) :
    ((ReplayBuffer.empty α c).pushAll xs).buffer = xs.tail ∧
    ((ReplayBuffer.empty α c).pushAll xs).buffer.length = c ∧
    (∀ ys : List α, ((ReplayBuffer.empty α c).pushAll ys).buffer.length ≤ c) := by
  have hne : xs ≠ [] := by
    intro he
    rw [he] at h
    simp at h
  have hsplit : xs.dropLast ++ [xs.getLast hne] = xs := List.dropLast_append_getLast hne
  have hlen : xs.dropLast.length = c := by
    rw [List.length_dropLast, h]
    rfl
  have hfold : (ReplayBuffer.empty α c).pushAll xs
      = ((ReplayBuffer.empty α c).pushAll xs.dropLast).push (xs.getLast hne) := by
    conv_lhs => rw [← hsplit]
    unfold ReplayBuffer.pushAll
    rw [List.foldl_append]
    rfl
  have hpre : ((ReplayBuffer.empty α c).pushAll xs.dropLast).buffer = xs.dropLast := by
    have hh := ReplayBuffer.pushAll_no_evict xs.dropLast (ReplayBuffer.empty α c)
      (by simp [ReplayBuffer.empty, hlen])
    simpa [ReplayBuffer.empty] using hh
  have hmain : ((ReplayBuffer.empty α c).pushAll xs).buffer = xs.tail := by
    rw [hfold, ReplayBuffer.push_buffer, ReplayBuffer.pushAll_capacity, hpre, hsplit]
    have hcap : (ReplayBuffer.empty α c).capacity = c := rfl
    rw [hcap, if_pos (by rw [h]; omega)]
  refine ⟨hmain, ?_, ?_⟩
  · rw [hmain, List.length_tail, h]
    rfl
  · intro ys
    exact ReplayBuffer.pushAll_length_le ys (ReplayBuffer.empty α c) (by
      simp [ReplayBuffer.empty])

/-- Witness for claim C9: capacity 2, three pushes, the first element is
evicted and the remaining two survive in order. -/
theorem replay_buffer_ring_eviction_witness :
    ([10, 20, 30] : List ℕ).length = 2 + 1 ∧
    ((ReplayBuffer.empty ℕ 2).pushAll [10, 20, 30]).buffer = [20, 30] :=
  ⟨rfl, (replay_buffer_ring_eviction ℕ 2 [10, 20, 30] rfl).1⟩

/-- Claim C10: whenever both grid dimensions are at least 2 and the positions,
destinations and obstacle cells of the observation map lie inside the grid,
every component of the 14-dimensional state vector that obs_to_state encodes
for an agent lies in the closed unit interval. -/
theorem obs_to_state_components_in_unit_interval (grid_size : ℕ × ℕ)
    (obstacles : List (ℕ × ℕ)) (n : ℕ) (position destination : ℕ → ℕ × ℕ) (i : ℕ)
    (hH : 2 ≤ grid_size.1) (hW : 2 ≤ grid_size.2) (hi : i < n)
    (hpos : ∀ j < n, (position j).1 < grid_size.1 ∧ (position j).2 < grid_size.2)
    (hdest : ∀ j < n, (destination j).1 < grid_size.1 ∧ (destination j).2 < grid_size.2)
    (hobs : ∀ p ∈ obstacles, p.1 < grid_size.1 ∧ p.2 < grid_size.2)
    (v : ℚ) (hv : v ∈ obs_to_state grid_size obstacles n position destination i) :
    (obs_to_state grid_size obstacles n position destination i).length = 14 ∧
    0 ≤ v ∧ v ≤ 1 := by
  refine ⟨rfl, ?_⟩
  simp only [obs_to_state, List.mem_append, List.mem_cons, List.not_mem_nil,
    or_false] at hv
  rcases hv with ((h|h|h|h)|h|h|h|h|h|h|h|h|h)|h
  · subst h
    exact coord_div_mem_unit hH (hpos i hi).1
  · subst h
    exact coord_div_mem_unit hW (hpos i hi).2
  · subst h
    exact coord_div_mem_unit hH (hdest i hi).1
  · subst h
    exact coord_div_mem_unit hW (hdest i hi).2
  · subst h
    exact localEntry_mem_unit _ _ _ _ _ _ _ _
  · subst h
    exact localEntry_mem_unit _ _ _ _ _ _ _ _
  · subst h
    exact localEntry_mem_unit _ _ _ _ _ _ _ _
  · subst h
    exact localEntry_mem_unit _ _ _ _ _ _ _ _
  · subst h
    exact localEntry_mem_unit _ _ _ _ _ _ _ _
  · subst h
    exact localEntry_mem_unit _ _ _ _ _ _ _ _
  · subst h
    exact localEntry_mem_unit _ _ _ _ _ _ _ _
  · subst h
    exact localEntry_mem_unit _ _ _ _ _ _ _ _
  · subst h
    exact localEntry_mem_unit _ _ _ _ _ _ _ _
  · subst h
    exact dist_norm_mem_unit hH hW (hpos i hi).1 (hpos i hi).2
      (hdest i hi).1 (hdest i hi).2

/-- Witness for claim C10: the centre entry of the window on a concrete 2 x 2
observation lies in the unit interval. -/
theorem obs_to_state_components_in_unit_interval_witness :
    0 ≤ localEntry (2, 2) [(0, 1)] 1 (fun _ => (0, 0)) 0 0 0 0 ∧
    localEntry (2, 2) [(0, 1)] 1 (fun _ => (0, 0)) 0 0 0 0 ≤ 1 :=
  (obs_to_state_components_in_unit_interval (2, 2) [(0, 1)] 1 (fun _ => (0, 0))
    (fun _ => (1, 1)) 0 (by decide) (by decide) (by decide) (by decide) (by decide)
    (by decide) (localEntry (2, 2) [(0, 1)] 1 (fun _ => (0, 0)) 0 0 0 0)
    (by simp [obs_to_state])).2
